import Mathlib

/-!
Verification of the frontend repository (Next.js/React client of a
scheduling SaaS) against its natural-language specification.

The development shallowly embeds the parts of the source the claims are
about:

* the typed REST client (`lib/api.ts`): every method of `ApiClient` is a
  Lean function returning the list of HTTP requests one invocation sends;
* the axios request/response interceptors;
* the auth context (`AuthProvider`): `login`, `logout`, `register`,
  `updateUser`, `refreshUser`, modelled as functions from the outcome of
  the single awaited call to the list of effects performed (storage
  writes, state updates, router navigation, toasts);
* the form submit handlers (`SignupForm`, `ForgotPasswordForm`,
  `ProfileForm`, `ForcePasswordChangeForm`, `OIDCConfigurationForm`),
  each a function from its pre-state and the awaited outcome to the
  post-state and effect trace;
* the password-strength meter and the signup validation schema;
* the OIDC scope-list editing helpers;
* the homepage render tree.

JavaScript strings are Lean `String`s, request bodies are an opaque
`Payload`, thrown HTTP errors are an explicit `ApiError` record following
the backend error-shape convention, and `async` control flow
(try/catch/finally) is unfolded into explicit case analysis on the
outcome of the awaited call.
-/

namespace Frontend

/-- HTTP verbs used by the axios instance in `lib/api.ts`. -/
inductive HttpMethod where
  | get
  | post
  | patch
  | delete
  deriving DecidableEq, Repr

/-- one HTTP request as issued by the axios instance: the verb and the URL
path (query `params` and request bodies never change which endpoint is
called, so they are not part of the request identity). -/
structure Request where
  method : HttpMethod
  path : String
  deriving DecidableEq, Repr

/-- an opaque stand-in for a JSON request body / query-params object; no
`ApiClient` method lets the body alter the endpoint path. -/
abbrev Payload := String

/-- the backend error body convention `{code, field_errors}` together with
the HTTP status of the failed response and the general human-readable
message the response carries (`error.response.data`). -/
structure ApiError where
  status : Option Nat
  code : Option String
  field_errors : List (String × List String)
  message : String
  deriving DecidableEq, Repr

end Frontend

namespace Frontend.STORAGE_KEYS

/-- `STORAGE_KEYS.AUTH_TOKEN` in `lib/constants.ts`. -/
def AUTH_TOKEN : String := "auth_token"

/-- `STORAGE_KEYS.USER_DATA` in `lib/constants.ts`. -/
def USER_DATA : String := "user_data"

end Frontend.STORAGE_KEYS

namespace Frontend.ApiClient.auth

/-- `ApiClient.auth.login`: one `api.post('/users/login/')`. -/
def login (_d : Payload) : List Request := [⟨.post, "/users/login/"⟩]

/-- `ApiClient.auth.register`: one `api.post('/users/register/')`. -/
def register (_d : Payload) : List Request := [⟨.post, "/users/register/"⟩]

/-- `ApiClient.auth.logout`: one `api.post('/users/logout/')`. -/
def logout : List Request := [⟨.post, "/users/logout/"⟩]

/-- `ApiClient.auth.verifyEmail`. -/
def verifyEmail (_d : Payload) : List Request := [⟨.post, "/users/verify-email/"⟩]

/-- `ApiClient.auth.requestPasswordReset`. -/
def requestPasswordReset (_d : Payload) : List Request :=
  [⟨.post, "/users/request-password-reset/"⟩]

/-- `ApiClient.auth.confirmPasswordReset`. -/
def confirmPasswordReset (_d : Payload) : List Request :=
  [⟨.post, "/users/confirm-password-reset/"⟩]

/-- `ApiClient.auth.changePassword`. -/
def changePassword (_d : Payload) : List Request := [⟨.post, "/users/change-password/"⟩]

/-- `ApiClient.auth.initiateSso`. -/
def initiateSso (_d : Payload) : List Request := [⟨.post, "/users/sso/initiate/"⟩]

/-- `ApiClient.auth.ssoDiscovery`: the domain is interpolated into the query. -/
def ssoDiscovery (domain : String) : List Request :=
  [⟨.get, "/users/sso/discovery/?domain=" ++ domain⟩]

end Frontend.ApiClient.auth

namespace Frontend.ApiClient.users

/-- `ApiClient.users.getProfile`. -/
def getProfile : List Request := [⟨.get, "/users/profile/"⟩]

/-- `ApiClient.users.updateProfile`. -/
def updateProfile (_d : Payload) : List Request := [⟨.patch, "/users/profile/"⟩]

/-- `ApiClient.users.getPublicProfile`. -/
def getPublicProfile (slug : String) : List Request :=
  [⟨.get, "/users/public/" ++ slug ++ "/"⟩]

/-- `ApiClient.users.getMfaDevices`. -/
def getMfaDevices : List Request := [⟨.get, "/users/mfa/devices/"⟩]

/-- `ApiClient.users.setupMfa`. -/
def setupMfa (_d : Payload) : List Request := [⟨.post, "/users/mfa/setup/"⟩]

/-- `ApiClient.users.verifyMfa`. -/
def verifyMfa (_d : Payload) : List Request := [⟨.post, "/users/mfa/verify/"⟩]

/-- `ApiClient.users.disableMfa`. -/
def disableMfa (_d : Payload) : List Request := [⟨.post, "/users/mfa/disable/"⟩]

/-- `ApiClient.users.regenerateBackupCodes`. -/
def regenerateBackupCodes (_d : Payload) : List Request :=
  [⟨.post, "/users/mfa/backup-codes/regenerate/"⟩]

/-- `ApiClient.users.getSessions`. -/
def getSessions : List Request := [⟨.get, "/users/sessions/"⟩]

/-- `ApiClient.users.revokeSession`. -/
def revokeSession (sessionId : String) : List Request :=
  [⟨.post, "/users/sessions/" ++ sessionId ++ "/revoke/"⟩]

/-- `ApiClient.users.revokeAllSessions`. -/
def revokeAllSessions : List Request := [⟨.post, "/users/sessions/revoke-all/"⟩]

/-- `ApiClient.users.getInvitations`. -/
def getInvitations : List Request := [⟨.get, "/users/invitations/"⟩]

/-- `ApiClient.users.sendInvitation`. -/
def sendInvitation (_d : Payload) : List Request := [⟨.post, "/users/invitations/"⟩]

/-- `ApiClient.users.respondToInvitation`. -/
def respondToInvitation (_d : Payload) : List Request :=
  [⟨.post, "/users/invitations/respond/"⟩]

/-- `ApiClient.users.getAuditLogs`. -/
def getAuditLogs : List Request := [⟨.get, "/users/audit-logs/"⟩]

/-- `ApiClient.users.getRoles`. -/
def getRoles : List Request := [⟨.get, "/users/roles/"⟩]

/-- `ApiClient.users.getPermissions`. -/
def getPermissions : List Request := [⟨.get, "/users/permissions/"⟩]

end Frontend.ApiClient.users

namespace Frontend.ApiClient.events

/-- `ApiClient.events.getEventTypes`. -/
def getEventTypes : List Request := [⟨.get, "/events/event-types/"⟩]

/-- `ApiClient.events.createEventType`. -/
def createEventType (_d : Payload) : List Request := [⟨.post, "/events/event-types/"⟩]

/-- `ApiClient.events.getEventType`. -/
def getEventType (id : String) : List Request :=
  [⟨.get, "/events/event-types/" ++ id ++ "/"⟩]

/-- `ApiClient.events.updateEventType`. -/
def updateEventType (id : String) (_d : Payload) : List Request :=
  [⟨.patch, "/events/event-types/" ++ id ++ "/"⟩]

/-- `ApiClient.events.deleteEventType`. -/
def deleteEventType (id : String) : List Request :=
  [⟨.delete, "/events/event-types/" ++ id ++ "/"⟩]

/-- `ApiClient.events.getPublicOrganizer`. -/
def getPublicOrganizer (slug : String) : List Request :=
  [⟨.get, "/events/public/" ++ slug ++ "/"⟩]

/-- `ApiClient.events.getPublicEventType`. -/
def getPublicEventType (organizerSlug eventTypeSlug : String) : List Request :=
  [⟨.get, "/events/public/" ++ organizerSlug ++ "/" ++ eventTypeSlug ++ "/"⟩]

/-- `ApiClient.events.getAvailableSlots`: the public slot endpoint; the
`params` object (dates, timezone) is passed as the query string. -/
def getAvailableSlots (organizerSlug eventTypeSlug : String) (_params : Payload) :
    List Request :=
  [⟨.get, "/events/slots/" ++ organizerSlug ++ "/" ++ eventTypeSlug ++ "/"⟩]

/-- `ApiClient.events.getBookings`. -/
def getBookings (_params : Payload) : List Request := [⟨.get, "/events/bookings/"⟩]

/-- `ApiClient.events.getBooking`. -/
def getBooking (id : String) : List Request :=
  [⟨.get, "/events/bookings/" ++ id ++ "/"⟩]

/-- `ApiClient.events.updateBooking`. -/
def updateBooking (id : String) (_d : Payload) : List Request :=
  [⟨.patch, "/events/bookings/" ++ id ++ "/"⟩]

/-- `ApiClient.events.createBooking`. -/
def createBooking (_d : Payload) : List Request := [⟨.post, "/events/bookings/create/"⟩]

/-- `ApiClient.events.getBookingByToken`. -/
def getBookingByToken (token : String) : List Request :=
  [⟨.get, "/events/booking/" ++ token ++ "/manage/"⟩]

/-- `ApiClient.events.manageBooking`. -/
def manageBooking (token : String) (_d : Payload) : List Request :=
  [⟨.post, "/events/booking/" ++ token ++ "/manage/"⟩]

/-- `ApiClient.events.addAttendee`. -/
def addAttendee (bookingId : String) (_d : Payload) : List Request :=
  [⟨.post, "/events/bookings/" ++ bookingId ++ "/attendees/add/"⟩]

/-- `ApiClient.events.removeAttendee`. -/
def removeAttendee (bookingId attendeeId : String) : List Request :=
  [⟨.post, "/events/bookings/" ++ bookingId ++ "/attendees/" ++ attendeeId ++ "/remove/"⟩]

/-- `ApiClient.events.getBookingAnalytics`. -/
def getBookingAnalytics (_params : Payload) : List Request :=
  [⟨.get, "/events/analytics/"⟩]

/-- `ApiClient.events.getBookingAuditLogs`. -/
def getBookingAuditLogs (bookingId : String) : List Request :=
  [⟨.get, "/events/bookings/" ++ bookingId ++ "/audit/"⟩]

end Frontend.ApiClient.events

namespace Frontend.ApiClient.availability

/-- `ApiClient.availability.getRules`. -/
def getRules : List Request := [⟨.get, "/availability/rules/"⟩]

/-- `ApiClient.availability.createRule`. -/
def createRule (_d : Payload) : List Request := [⟨.post, "/availability/rules/"⟩]

/-- `ApiClient.availability.getRule`. -/
def getRule (id : String) : List Request := [⟨.get, "/availability/rules/" ++ id ++ "/"⟩]

/-- `ApiClient.availability.updateRule`. -/
def updateRule (id : String) (_d : Payload) : List Request :=
  [⟨.patch, "/availability/rules/" ++ id ++ "/"⟩]

/-- `ApiClient.availability.deleteRule`. -/
def deleteRule (id : String) : List Request :=
  [⟨.delete, "/availability/rules/" ++ id ++ "/"⟩]

/-- `ApiClient.availability.getOverrides`. -/
def getOverrides : List Request := [⟨.get, "/availability/overrides/"⟩]

/-- `ApiClient.availability.createOverride`. -/
def createOverride (_d : Payload) : List Request := [⟨.post, "/availability/overrides/"⟩]

/-- `ApiClient.availability.getOverride`. -/
def getOverride (id : String) : List Request :=
  [⟨.get, "/availability/overrides/" ++ id ++ "/"⟩]

/-- `ApiClient.availability.updateOverride`. -/
def updateOverride (id : String) (_d : Payload) : List Request :=
  [⟨.patch, "/availability/overrides/" ++ id ++ "/"⟩]

/-- `ApiClient.availability.deleteOverride`. -/
def deleteOverride (id : String) : List Request :=
  [⟨.delete, "/availability/overrides/" ++ id ++ "/"⟩]

/-- `ApiClient.availability.getBlockedTimes`. -/
def getBlockedTimes : List Request := [⟨.get, "/availability/blocked/"⟩]

/-- `ApiClient.availability.createBlockedTime`. -/
def createBlockedTime (_d : Payload) : List Request := [⟨.post, "/availability/blocked/"⟩]

/-- `ApiClient.availability.getBlockedTime`. -/
def getBlockedTime (id : String) : List Request :=
  [⟨.get, "/availability/blocked/" ++ id ++ "/"⟩]

/-- `ApiClient.availability.updateBlockedTime`. -/
def updateBlockedTime (id : String) (_d : Payload) : List Request :=
  [⟨.patch, "/availability/blocked/" ++ id ++ "/"⟩]

/-- `ApiClient.availability.deleteBlockedTime`. -/
def deleteBlockedTime (id : String) : List Request :=
  [⟨.delete, "/availability/blocked/" ++ id ++ "/"⟩]

/-- `ApiClient.availability.getRecurringBlocks`. -/
def getRecurringBlocks : List Request := [⟨.get, "/availability/recurring-blocks/"⟩]

/-- `ApiClient.availability.createRecurringBlock`. -/
def createRecurringBlock (_d : Payload) : List Request :=
  [⟨.post, "/availability/recurring-blocks/"⟩]

/-- `ApiClient.availability.getRecurringBlock`. -/
def getRecurringBlock (id : String) : List Request :=
  [⟨.get, "/availability/recurring-blocks/" ++ id ++ "/"⟩]

/-- `ApiClient.availability.updateRecurringBlock`. -/
def updateRecurringBlock (id : String) (_d : Payload) : List Request :=
  [⟨.patch, "/availability/recurring-blocks/" ++ id ++ "/"⟩]

/-- `ApiClient.availability.deleteRecurringBlock`. -/
def deleteRecurringBlock (id : String) : List Request :=
  [⟨.delete, "/availability/recurring-blocks/" ++ id ++ "/"⟩]

/-- `ApiClient.availability.getBufferSettings`. -/
def getBufferSettings : List Request := [⟨.get, "/availability/buffer/"⟩]

/-- `ApiClient.availability.updateBufferSettings`. -/
def updateBufferSettings (_d : Payload) : List Request :=
  [⟨.patch, "/availability/buffer/"⟩]

/-- `ApiClient.availability.getCalculatedSlots`: the authenticated
calculated-slot endpoint. -/
def getCalculatedSlots (organizerSlug : String) (_params : Payload) : List Request :=
  [⟨.get, "/availability/calculated-slots/" ++ organizerSlug ++ "/"⟩]

/-- `ApiClient.availability.getStats`. -/
def getStats : List Request := [⟨.get, "/availability/stats/"⟩]

/-- `ApiClient.availability.clearCache`. -/
def clearCache : List Request := [⟨.post, "/availability/cache/clear/"⟩]

/-- `ApiClient.availability.precomputeCache`. -/
def precomputeCache (_d : Payload) : List Request :=
  [⟨.post, "/availability/cache/precompute/"⟩]

end Frontend.ApiClient.availability

namespace Frontend.ApiClient.integrations

/-- `ApiClient.integrations.getCalendarIntegrations`. -/
def getCalendarIntegrations : List Request := [⟨.get, "/integrations/calendar/"⟩]

/-- `ApiClient.integrations.getCalendarIntegration`. -/
def getCalendarIntegration (id : String) : List Request :=
  [⟨.get, "/integrations/calendar/" ++ id ++ "/"⟩]

/-- `ApiClient.integrations.updateCalendarIntegration`. -/
def updateCalendarIntegration (id : String) (_d : Payload) : List Request :=
  [⟨.patch, "/integrations/calendar/" ++ id ++ "/"⟩]

/-- `ApiClient.integrations.deleteCalendarIntegration`. -/
def deleteCalendarIntegration (id : String) : List Request :=
  [⟨.delete, "/integrations/calendar/" ++ id ++ "/"⟩]

/-- `ApiClient.integrations.refreshCalendarSync`. -/
def refreshCalendarSync (id : String) : List Request :=
  [⟨.post, "/integrations/calendar/" ++ id ++ "/refresh/"⟩]

/-- `ApiClient.integrations.forceCalendarSync`. -/
def forceCalendarSync (id : String) : List Request :=
  [⟨.post, "/integrations/calendar/" ++ id ++ "/force-sync/"⟩]

/-- `ApiClient.integrations.getVideoIntegrations`. -/
def getVideoIntegrations : List Request := [⟨.get, "/integrations/video/"⟩]

/-- `ApiClient.integrations.getVideoIntegration`. -/
def getVideoIntegration (id : String) : List Request :=
  [⟨.get, "/integrations/video/" ++ id ++ "/"⟩]

/-- `ApiClient.integrations.updateVideoIntegration`. -/
def updateVideoIntegration (id : String) (_d : Payload) : List Request :=
  [⟨.patch, "/integrations/video/" ++ id ++ "/"⟩]

/-- `ApiClient.integrations.deleteVideoIntegration`. -/
def deleteVideoIntegration (id : String) : List Request :=
  [⟨.delete, "/integrations/video/" ++ id ++ "/"⟩]

/-- `ApiClient.integrations.getWebhooks`. -/
def getWebhooks : List Request := [⟨.get, "/integrations/webhooks/"⟩]

/-- `ApiClient.integrations.createWebhook`. -/
def createWebhook (_d : Payload) : List Request := [⟨.post, "/integrations/webhooks/"⟩]

/-- `ApiClient.integrations.getWebhook`. -/
def getWebhook (id : String) : List Request :=
  [⟨.get, "/integrations/webhooks/" ++ id ++ "/"⟩]

/-- `ApiClient.integrations.updateWebhook`. -/
def updateWebhook (id : String) (_d : Payload) : List Request :=
  [⟨.patch, "/integrations/webhooks/" ++ id ++ "/"⟩]

/-- `ApiClient.integrations.deleteWebhook`. -/
def deleteWebhook (id : String) : List Request :=
  [⟨.delete, "/integrations/webhooks/" ++ id ++ "/"⟩]

/-- `ApiClient.integrations.testWebhook`. -/
def testWebhook (id : String) : List Request :=
  [⟨.post, "/integrations/webhooks/" ++ id ++ "/test/"⟩]

/-- `ApiClient.integrations.initiateOauth`. -/
def initiateOauth (_d : Payload) : List Request :=
  [⟨.post, "/integrations/oauth/initiate/"⟩]

/-- `ApiClient.integrations.oauthCallback`. -/
def oauthCallback (_d : Payload) : List Request :=
  [⟨.post, "/integrations/oauth/callback/"⟩]

/-- `ApiClient.integrations.getIntegrationHealth`. -/
def getIntegrationHealth : List Request := [⟨.get, "/integrations/health/"⟩]

/-- `ApiClient.integrations.getIntegrationLogs`. -/
def getIntegrationLogs : List Request := [⟨.get, "/integrations/logs/"⟩]

/-- `ApiClient.integrations.getCalendarConflicts`. -/
def getCalendarConflicts : List Request := [⟨.get, "/integrations/calendar/conflicts/"⟩]

end Frontend.ApiClient.integrations

namespace Frontend.ApiClient.workflows

/-- `ApiClient.workflows.getWorkflows`. -/
def getWorkflows : List Request := [⟨.get, "/workflows/"⟩]

/-- `ApiClient.workflows.createWorkflow`. -/
def createWorkflow (_d : Payload) : List Request := [⟨.post, "/workflows/"⟩]

/-- `ApiClient.workflows.getWorkflow`. -/
def getWorkflow (id : String) : List Request := [⟨.get, "/workflows/" ++ id ++ "/"⟩]

/-- `ApiClient.workflows.updateWorkflow`. -/
def updateWorkflow (id : String) (_d : Payload) : List Request :=
  [⟨.patch, "/workflows/" ++ id ++ "/"⟩]

/-- `ApiClient.workflows.deleteWorkflow`. -/
def deleteWorkflow (id : String) : List Request :=
  [⟨.delete, "/workflows/" ++ id ++ "/"⟩]

/-- `ApiClient.workflows.duplicateWorkflow`. -/
def duplicateWorkflow (id : String) : List Request :=
  [⟨.post, "/workflows/" ++ id ++ "/duplicate/"⟩]

/-- `ApiClient.workflows.getWorkflowActions`. -/
def getWorkflowActions (workflowId : String) : List Request :=
  [⟨.get, "/workflows/" ++ workflowId ++ "/actions/"⟩]

/-- `ApiClient.workflows.createWorkflowAction`. -/
def createWorkflowAction (workflowId : String) (_d : Payload) : List Request :=
  [⟨.post, "/workflows/" ++ workflowId ++ "/actions/"⟩]

/-- `ApiClient.workflows.getWorkflowAction`. -/
def getWorkflowAction (id : String) : List Request :=
  [⟨.get, "/workflows/actions/" ++ id ++ "/"⟩]

/-- `ApiClient.workflows.updateWorkflowAction`. -/
def updateWorkflowAction (id : String) (_d : Payload) : List Request :=
  [⟨.patch, "/workflows/actions/" ++ id ++ "/"⟩]

/-- `ApiClient.workflows.deleteWorkflowAction`. -/
def deleteWorkflowAction (id : String) : List Request :=
  [⟨.delete, "/workflows/actions/" ++ id ++ "/"⟩]

/-- `ApiClient.workflows.testWorkflow`. -/
def testWorkflow (id : String) (_d : Payload) : List Request :=
  [⟨.post, "/workflows/" ++ id ++ "/test/"⟩]

/-- `ApiClient.workflows.validateWorkflow`. -/
def validateWorkflow (id : String) : List Request :=
  [⟨.post, "/workflows/" ++ id ++ "/validate/"⟩]

/-- `ApiClient.workflows.getExecutionSummary`. -/
def getExecutionSummary (id : String) : List Request :=
  [⟨.get, "/workflows/" ++ id ++ "/execution-summary/"⟩]

/-- `ApiClient.workflows.getExecutions`. -/
def getExecutions : List Request := [⟨.get, "/workflows/executions/"⟩]

/-- `ApiClient.workflows.getTemplates`. -/
def getTemplates : List Request := [⟨.get, "/workflows/templates/"⟩]

/-- `ApiClient.workflows.createFromTemplate`. -/
def createFromTemplate (_d : Payload) : List Request :=
  [⟨.post, "/workflows/templates/create-from/"⟩]

/-- `ApiClient.workflows.bulkTest`. -/
def bulkTest (_d : Payload) : List Request := [⟨.post, "/workflows/bulk-test/"⟩]

/-- `ApiClient.workflows.getPerformanceStats`. -/
def getPerformanceStats : List Request := [⟨.get, "/workflows/performance-stats/"⟩]

end Frontend.ApiClient.workflows

namespace Frontend.ApiClient.notifications

/-- `ApiClient.notifications.getTemplates`. -/
def getTemplates : List Request := [⟨.get, "/notifications/templates/"⟩]

/-- `ApiClient.notifications.createTemplate`. -/
def createTemplate (_d : Payload) : List Request := [⟨.post, "/notifications/templates/"⟩]

/-- `ApiClient.notifications.getTemplate`. -/
def getTemplate (id : String) : List Request :=
  [⟨.get, "/notifications/templates/" ++ id ++ "/"⟩]

/-- `ApiClient.notifications.updateTemplate`. -/
def updateTemplate (id : String) (_d : Payload) : List Request :=
  [⟨.patch, "/notifications/templates/" ++ id ++ "/"⟩]

/-- `ApiClient.notifications.deleteTemplate`. -/
def deleteTemplate (id : String) : List Request :=
  [⟨.delete, "/notifications/templates/" ++ id ++ "/"⟩]

/-- `ApiClient.notifications.testTemplate`. -/
def testTemplate (id : String) : List Request :=
  [⟨.post, "/notifications/templates/" ++ id ++ "/test/"⟩]

/-- `ApiClient.notifications.getPreferences`. -/
def getPreferences : List Request := [⟨.get, "/notifications/preferences/"⟩]

/-- `ApiClient.notifications.updatePreferences`. -/
def updatePreferences (_d : Payload) : List Request :=
  [⟨.patch, "/notifications/preferences/"⟩]

/-- `ApiClient.notifications.getLogs`. -/
def getLogs : List Request := [⟨.get, "/notifications/logs/"⟩]

/-- `ApiClient.notifications.resendNotification`. -/
def resendNotification (id : String) : List Request :=
  [⟨.post, "/notifications/" ++ id ++ "/resend/"⟩]

/-- `ApiClient.notifications.getScheduled`. -/
def getScheduled : List Request := [⟨.get, "/notifications/scheduled/"⟩]

/-- `ApiClient.notifications.cancelScheduled`. -/
def cancelScheduled (id : String) : List Request :=
  [⟨.post, "/notifications/scheduled/" ++ id ++ "/cancel/"⟩]

/-- `ApiClient.notifications.sendNotification`. -/
def sendNotification (_d : Payload) : List Request := [⟨.post, "/notifications/send/"⟩]

/-- `ApiClient.notifications.getStats`. -/
def getStats : List Request := [⟨.get, "/notifications/stats/"⟩]

/-- `ApiClient.notifications.getHealth`. -/
def getHealth : List Request := [⟨.get, "/notifications/health/"⟩]

end Frontend.ApiClient.notifications

namespace Frontend.ApiClient.contacts

/-- `ApiClient.contacts.getContacts`. -/
def getContacts (_params : Payload) : List Request := [⟨.get, "/contacts/"⟩]

/-- `ApiClient.contacts.createContact`. -/
def createContact (_d : Payload) : List Request := [⟨.post, "/contacts/"⟩]

/-- `ApiClient.contacts.getContact`. -/
def getContact (id : String) : List Request := [⟨.get, "/contacts/" ++ id ++ "/"⟩]

/-- `ApiClient.contacts.updateContact`. -/
def updateContact (id : String) (_d : Payload) : List Request :=
  [⟨.patch, "/contacts/" ++ id ++ "/"⟩]

/-- `ApiClient.contacts.deleteContact`. -/
def deleteContact (id : String) : List Request :=
  [⟨.delete, "/contacts/" ++ id ++ "/"⟩]

/-- `ApiClient.contacts.getContactInteractions`. -/
def getContactInteractions (contactId : String) : List Request :=
  [⟨.get, "/contacts/" ++ contactId ++ "/interactions/"⟩]

/-- `ApiClient.contacts.addContactInteraction`. -/
def addContactInteraction (contactId : String) (_d : Payload) : List Request :=
  [⟨.post, "/contacts/" ++ contactId ++ "/interactions/add/"⟩]

/-- `ApiClient.contacts.getGroups`. -/
def getGroups : List Request := [⟨.get, "/contacts/groups/"⟩]

/-- `ApiClient.contacts.createGroup`. -/
def createGroup (_d : Payload) : List Request := [⟨.post, "/contacts/groups/"⟩]

/-- `ApiClient.contacts.getGroup`. -/
def getGroup (id : String) : List Request := [⟨.get, "/contacts/groups/" ++ id ++ "/"⟩]

/-- `ApiClient.contacts.updateGroup`. -/
def updateGroup (id : String) (_d : Payload) : List Request :=
  [⟨.patch, "/contacts/groups/" ++ id ++ "/"⟩]

/-- `ApiClient.contacts.deleteGroup`. -/
def deleteGroup (id : String) : List Request :=
  [⟨.delete, "/contacts/groups/" ++ id ++ "/"⟩]

/-- `ApiClient.contacts.addContactToGroup`. -/
def addContactToGroup (contactId groupId : String) : List Request :=
  [⟨.post, "/contacts/" ++ contactId ++ "/groups/" ++ groupId ++ "/add/"⟩]

/-- `ApiClient.contacts.removeContactFromGroup`. -/
def removeContactFromGroup (contactId groupId : String) : List Request :=
  [⟨.post, "/contacts/" ++ contactId ++ "/groups/" ++ groupId ++ "/remove/"⟩]

/-- `ApiClient.contacts.importContacts`: one multipart POST. -/
def importContacts (_d : Payload) : List Request := [⟨.post, "/contacts/import/"⟩]

/-- `ApiClient.contacts.exportContacts`. -/
def exportContacts : List Request := [⟨.get, "/contacts/export/"⟩]

/-- `ApiClient.contacts.mergeContacts`. -/
def mergeContacts (_d : Payload) : List Request := [⟨.post, "/contacts/merge/"⟩]

/-- `ApiClient.contacts.getStats`. -/
def getStats : List Request := [⟨.get, "/contacts/stats/"⟩]

end Frontend.ApiClient.contacts

namespace Frontend

/-- the profile entity as the `ProfileForm` merges it (`{...profile, ...data}`);
the embedding carries two representative fields of the many the source
record has, enough to distinguish a server-provided value from a locally
merged one. -/
structure Profile where
  display_name : String
  bio : String
  deriving DecidableEq, Repr

/-- the user entity as `AuthProvider` stores it: the fields the client code
reads or patches. -/
structure User where
  account_status : String
  is_mfa_enabled : Bool
  profile : Profile
  deriving DecidableEq, Repr

/-- a `Partial<User>` object as passed to `updateUser`: every field optional. -/
structure UserPatch where
  account_status : Option String := none
  is_mfa_enabled : Option Bool := none
  profile : Option Profile := none
  deriving DecidableEq, Repr

/-- the JavaScript spread `{ ...user, ...userData }` in `updateUser`:
fields present in the patch win. -/
def mergeUser (u : User) (p : UserPatch) : User :=
  { account_status := p.account_status.getD u.account_status,
    is_mfa_enabled := p.is_mfa_enabled.getD u.is_mfa_enabled,
    profile := p.profile.getD u.profile }

/-- a value written to `localStorage`: either the auth token string or the
serialized user object (`JSON.stringify(userData)`). -/
inductive StorageValue where
  | token (t : String)
  | userJson (u : User)
  deriving DecidableEq, Repr

/-- an observable side effect of a handler, in the order the code performs
them: HTTP requests, web-storage writes/removals, React state updates of
the auth user, router navigations, hard browser redirects, toasts,
`console.error` logging and invocations of caller-supplied callbacks. -/
inductive Effect where
  | request (r : Request)
  | setStorage (key : String) (value : StorageValue)
  | removeStorage (key : String)
  | setUser (u : Option User)
  | routerPush (url : String)
  | setLocation (url : String)
  | toast (variant : String) (title : String) (description : String)
  | consoleError (tag : String)
  | callback (tag : String)
  deriving DecidableEq, Repr

/-- lifts the requests an `ApiClient` method sends into the effect trace. -/
def reqs (rs : List Request) : List Effect := rs.map Effect.request

/-- the HTTP requests contained in an effect trace. -/
def requestsOf : List Effect → List Request
  | [] => []
  | Effect.request r :: es => r :: requestsOf es
  | _ :: es => requestsOf es

/-- the serialized user values an effect trace writes under a storage key. -/
def userWrites (key : String) : List Effect → List User
  | [] => []
  | Effect.setStorage k (StorageValue.userJson u) :: es =>
      if k = key then u :: userWrites key es else userWrites key es
  | _ :: es => userWrites key es

/-- the axios config fields the request interceptor touches. -/
structure AxiosConfig where
  req : Request
  authHeader : Option String
  deriving DecidableEq, Repr

/-- the request interceptor of `lib/api.ts`: when a token is stored it sets
the `Authorization` header to `Token <token>`; it only rewrites the config
and sends nothing itself. -/
def requestInterceptorOnFulfilled (storedToken : Option String) (config : AxiosConfig) :
    AxiosConfig :=
  match storedToken with
  | some token => { config with authHeader := some ("Token " ++ token) }
  | none => config

/-- the response interceptor error handler of `lib/api.ts`: on 401 (and a
browser `window` present) it removes the stored token and hard-redirects to
`/login`; on 403 and 429 it logs; in every case it re-rejects the same
error — it never re-issues the request. -/
def responseInterceptorOnRejected (hasWindow : Bool) (e : ApiError) :
    List Effect × Except ApiError Unit :=
  ((if e.status = some 401 then
      if hasWindow then
        [Effect.removeStorage STORAGE_KEYS.AUTH_TOKEN, Effect.setLocation "/login"]
      else []
    else []) ++
   (if e.status = some 403 then [Effect.consoleError "Permission denied"] else []) ++
   (if e.status = some 429 then [Effect.consoleError "Rate limit exceeded"] else []),
   Except.error e)

/-- the response body of `POST /users/login/` and `POST /users/register/`:
`{ user, token }`. -/
structure AuthResponse where
  user : User
  token : String
  deriving DecidableEq, Repr

end Frontend

namespace Frontend.AuthProvider

/-- the redirect `login` chooses from `userData.account_status`. -/
def loginRedirect (u : User) : String :=
  if u.account_status = "pending_verification" then "/verify-email"
  else if u.account_status = "password_expired_grace_period" then "/force-password-change"
  else "/dashboard"

/-- `AuthProvider.login`: one `ApiClient.auth.login` call; on success it
stores the token and the response user, sets the in-memory user and
redirects by account status; on failure it redirects to `/reset-password`
when the error code is `password_expired` and re-throws. -/
def login (d : Payload) (res : Except ApiError AuthResponse) :
    List Effect × Except ApiError Unit :=
  match res with
  | .ok r =>
      (reqs (ApiClient.auth.login d) ++
        [Effect.setStorage STORAGE_KEYS.AUTH_TOKEN (.token r.token),
         Effect.setStorage STORAGE_KEYS.USER_DATA (.userJson r.user),
         Effect.setUser (some r.user),
         Effect.routerPush (loginRedirect r.user)],
       .ok ())
  | .error e =>
      (reqs (ApiClient.auth.login d) ++
        (if e.code = some "password_expired" then [Effect.routerPush "/reset-password"] else []),
       .error e)

/-- `AuthProvider.logout`: one `ApiClient.auth.logout` call inside `try`;
the `catch` only logs; the `finally` always removes both storage keys,
nulls the user and navigates to `/login`. -/
def logout (res : Except ApiError Unit) : List Effect :=
  reqs ApiClient.auth.logout ++
  (match res with
   | .ok _ => []
   | .error _ => [Effect.consoleError "Logout error"]) ++
  [Effect.removeStorage STORAGE_KEYS.AUTH_TOKEN,
   Effect.removeStorage STORAGE_KEYS.USER_DATA,
   Effect.setUser none,
   Effect.routerPush "/login"]

/-- `AuthProvider.register`: one `ApiClient.auth.register` call; on success
it stores the token and response user, sets the user and redirects to
email verification; a failure propagates to the caller. -/
def register (d : Payload) (res : Except ApiError AuthResponse) :
    List Effect × Except ApiError Unit :=
  match res with
  | .ok r =>
      (reqs (ApiClient.auth.register d) ++
        [Effect.setStorage STORAGE_KEYS.AUTH_TOKEN (.token r.token),
         Effect.setStorage STORAGE_KEYS.USER_DATA (.userJson r.user),
         Effect.setUser (some r.user),
         Effect.routerPush "/verify-email"],
       .ok ())
  | .error e => (reqs (ApiClient.auth.register d), .error e)

/-- `AuthProvider.updateUser`: when a user is present it merges the partial
update over it, sets the merged user and rewrites `USER_DATA`; no network
traffic. -/
def updateUser (user : Option User) (p : UserPatch) : List Effect :=
  match user with
  | some u =>
      [Effect.setUser (some (mergeUser u p)),
       Effect.setStorage STORAGE_KEYS.USER_DATA (.userJson (mergeUser u p))]
  | none => []

/-- `AuthProvider.refreshUser`: one `ApiClient.users.getProfile` call; on
success it sets and stores the fresh profile response; on failure it logs,
runs the full `logout` when the status is 401, and re-throws.
`logoutRes` is the outcome of the nested logout API call. -/
def refreshUser (logoutRes : Except ApiError Unit) (res : Except ApiError User) :
    List Effect × Except ApiError Unit :=
  match res with
  | .ok u =>
      (reqs ApiClient.users.getProfile ++
        [Effect.setUser (some u),
         Effect.setStorage STORAGE_KEYS.USER_DATA (.userJson u)],
       .ok ())
  | .error e =>
      (reqs ApiClient.users.getProfile ++
        [Effect.consoleError "Error refreshing user data"] ++
        (if e.status = some 401 then logout logoutRes else []),
       .error e)

end Frontend.AuthProvider

namespace Frontend

/-- Modelled from the spec: `getErrorMessage` lives in `lib/utils`, a module
whose code is not among the repository files (only its importers are). The
spec says HTTP failures are surfaced as a general message derived from the
backend error body, so it extracts the message the error carries. -/
def getErrorMessage (e : ApiError) : String := e.message

/-- Modelled from the spec: `getFieldErrors` lives in `lib/utils`, a module
whose code is not among the repository files. The spec says inline form
messages derive from the `field_errors` member of the backend error-shape
convention, so it extracts that record. -/
def getFieldErrors (e : ApiError) : List (String × List String) := e.field_errors

/-- the inline error markup each field renders:
`errors.X?.message || fieldErrors.X?.[0]` — the client-side validation
message when present, otherwise the first backend message for the field. -/
def inlineFieldError (clientMessage : Option String)
    (fieldErrors : List (String × List String)) (name : String) : Option String :=
  match clientMessage with
  | some m => some m
  | none =>
    match fieldErrors.lookup name with
    | some msgs => msgs.head?
    | none => none

/-- the component state shared by the submit handlers: the general error
banner, the per-field backend errors and the loading flag. -/
structure FormState where
  error : Option String := none
  fieldErrors : List (String × List String) := []
  isLoading : Bool := false
  deriving DecidableEq, Repr

end Frontend

namespace Frontend.SignupForm

/-- `SignupForm.onSubmit`: clears the banners, raises the loading flag,
awaits `registerUser(data)` (the provider `register`, a single
`/users/register/` POST); success shows the success toast, failure sets
the general and per-field errors and shows a destructive toast; the
`finally` lowers the loading flag on both paths. -/
def onSubmit (st : FormState) (d : Payload) (res : Except ApiError AuthResponse) :
    FormState × List Effect :=
  let entered : FormState := { st with error := none, fieldErrors := [], isLoading := true }
  let inner := AuthProvider.register d res
  match inner.2 with
  | .ok _ =>
      ({ entered with isLoading := false },
       inner.1 ++
         [Effect.toast "success" "Account created!"
            "Please check your email to verify your account."])
  | .error e =>
      ({ entered with
          error := some (getErrorMessage e),
          fieldErrors := getFieldErrors e,
          isLoading := false },
       inner.1 ++ [Effect.toast "destructive" "Registration failed" (getErrorMessage e)])

end Frontend.SignupForm

namespace Frontend.ForgotPasswordForm

/-- the `ForgotPasswordForm` component state: its loading flag, its
submitted flag (which switches to the confirmation card) and the error
banner. -/
structure State where
  isLoading : Bool := false
  isSubmitted : Bool := false
  error : Option String := none
  deriving DecidableEq, Repr

/-- Modelled from the spec: the `requestPasswordReset` member of the auth
hook is not among the repository files (only its caller and the endpoint it
names are); the spec says API calls are thin wrappers, so it forwards to
`ApiClient.auth.requestPasswordReset` and returns that call's outcome. -/
def requestPasswordReset (d : Payload) (res : Except ApiError Unit) :
    List Effect × Except ApiError Unit :=
  (reqs (ApiClient.auth.requestPasswordReset d), res)

/-- `ForgotPasswordForm.onSubmit`: clears the error, raises the loading
flag, awaits `requestPasswordReset(data.email)`; success marks the form
submitted and shows the success toast, failure sets the error banner and
shows a destructive toast; the `finally` lowers the loading flag. -/
def onSubmit (st : State) (email : Payload) (res : Except ApiError Unit) :
    State × List Effect :=
  let entered : State := { st with error := none, isLoading := true }
  let inner := requestPasswordReset email res
  match inner.2 with
  | .ok _ =>
      ({ entered with isSubmitted := true, isLoading := false },
       inner.1 ++
         [Effect.toast "success" "Reset link sent"
            "If an account with that email exists, a password reset link has been sent."])
  | .error e =>
      ({ entered with error := some (getErrorMessage e), isLoading := false },
       inner.1 ++ [Effect.toast "destructive" "Request failed" (getErrorMessage e)])

end Frontend.ForgotPasswordForm

namespace Frontend.ProfileForm

/-- the profile fields of the form data object the submit handler spreads
over the current profile (`{ ...profile, ...data }`). -/
structure ProfileFormData where
  display_name : String
  bio : String
  deriving DecidableEq, Repr

/-- the spread `{ ...profile, ...data }` building `updatedProfile`. -/
def mergeProfile (_profile : Profile) (d : ProfileFormData) : Profile :=
  { display_name := d.display_name, bio := d.bio }

/-- `ProfileForm.onSubmit`: it builds a `FormData`, but the
`ApiClient.users.updateProfile` call is commented out in the source
("For now, simulate success"), so the handler performs no HTTP request: it
invokes the `onUpdate` callback with the locally merged profile, persists
that merged profile through `updateUser` and shows the success toast; the
`finally` lowers the loading flag. -/
def onSubmit (st : FormState) (user : Option User) (profile : Profile)
    (d : ProfileFormData) : FormState × List Effect :=
  let entered : FormState := { st with error := none, fieldErrors := [], isLoading := true }
  let updatedProfile := mergeProfile profile d
  ({ entered with isLoading := false },
   [Effect.callback "onUpdate"] ++
     AuthProvider.updateUser user { profile := some updatedProfile } ++
     [Effect.toast "success" "Profile updated"
        "Your profile has been successfully updated."])

end Frontend.ProfileForm

namespace Frontend.ForcePasswordChangeForm

/-- Modelled from the spec: `ApiClient.auth.forcePasswordChange` is called
by the auth provider but is not among the API client module's members in
the repository files; per the plan it is the forced password-change
endpoint of the users app. -/
def forcePasswordChangeRequest : Request := ⟨.post, "/users/force-password-change/"⟩

/-- `AuthProvider.forcePasswordChange`: one API call; on success, when a
user is present, it rebuilds the user with `account_status: 'active'` and
persists that object through `updateUser`, then navigates to the
dashboard; a failure propagates. -/
def providerForcePasswordChange (user : Option User) (res : Except ApiError Unit) :
    List Effect × Except ApiError Unit :=
  match res with
  | .ok _ =>
      ([Effect.request forcePasswordChangeRequest] ++
        (match user with
         | some u =>
             AuthProvider.updateUser (some u)
               { account_status := some "active",
                 is_mfa_enabled := some u.is_mfa_enabled,
                 profile := some u.profile }
         | none => []) ++
        [Effect.routerPush "/dashboard"],
       .ok ())
  | .error e => ([Effect.request forcePasswordChangeRequest], .error e)

/-- `ForcePasswordChangeForm.onSubmit`: clears the banners, raises the
loading flag, awaits `forcePasswordChange(data)`; success shows the
success toast, failure sets the general and per-field errors and shows a
destructive toast; the `finally` lowers the loading flag. -/
def onSubmit (st : FormState) (user : Option User) (res : Except ApiError Unit) :
    FormState × List Effect :=
  let entered : FormState := { st with error := none, fieldErrors := [], isLoading := true }
  let inner := providerForcePasswordChange user res
  match inner.2 with
  | .ok _ =>
      ({ entered with isLoading := false },
       inner.1 ++
         [Effect.toast "success" "Password updated"
            "Your password has been successfully updated. Your account is now active."])
  | .error e =>
      ({ entered with
          error := some (getErrorMessage e),
          fieldErrors := getFieldErrors e,
          isLoading := false },
       inner.1 ++
         [Effect.toast "destructive" "Password change failed" (getErrorMessage e)])

end Frontend.ForcePasswordChangeForm

namespace Frontend.OIDCConfigurationForm

/-- `OIDCConfigurationForm.addScope`: appends `newScope` only when the
input is non-empty (JavaScript truthiness of the string) and the scope is
not already in the list. -/
def addScope (customScopes : List String) (newScope : String) : List String :=
  if newScope ≠ "" ∧ ¬ customScopes.contains newScope then customScopes ++ [newScope]
  else customScopes

/-- `OIDCConfigurationForm.removeScope`: keeps every scope different from
the removed one (`customScopes.filter(s => s !== scope)`). -/
def removeScope (customScopes : List String) (scope : String) : List String :=
  customScopes.filter (fun s => s ≠ scope)

/-- `OIDCConfigurationForm.onSubmit`: clears the banners, raises the
loading flag, awaits `onSave?.(data)`; success shows a toast whose title
depends on whether an existing configuration is edited, failure sets the
general and per-field errors and shows a destructive toast; the `finally`
lowers the loading flag. -/
def onSubmit (st : FormState) (hasConfig : Bool) (res : Except ApiError Unit) :
    FormState × List Effect :=
  let entered : FormState := { st with error := none, fieldErrors := [], isLoading := true }
  match res with
  | .ok _ =>
      ({ entered with isLoading := false },
       [Effect.callback "onSave",
        Effect.toast "success"
          (if hasConfig then "OIDC configuration updated" else "OIDC configuration created")
          "The OIDC configuration has been successfully saved."])
  | .error e =>
      ({ entered with
          error := some (getErrorMessage e),
          fieldErrors := getFieldErrors e,
          isLoading := false },
       [Effect.callback "onSave",
        Effect.toast "destructive" "Save failed" (getErrorMessage e)])

end Frontend.OIDCConfigurationForm

namespace Frontend

/-- the character class of the `/[A-Z]/` test. -/
def isUppercaseChar (c : Char) : Bool := 65 ≤ c.toNat && c.toNat ≤ 90

/-- the character class of the `/[a-z]/` test. -/
def isLowercaseChar (c : Char) : Bool := 97 ≤ c.toNat && c.toNat ≤ 122

/-- the character class of the `/\d/` test. -/
def isDigitChar (c : Char) : Bool := 48 ≤ c.toNat && c.toNat ≤ 57

/-- the special characters of the test `/[!@#$%^&*(),.?":{}|<>]/` shared by
the signup schema and the strength meter (the two braces written by code
point). -/
def specialChars : List Char :=
  ['!', '@', '#', '$', '%', '^', '&', '*', '(', ')', ',', '.', '?', '"', ':',
   Char.ofNat 123, Char.ofNat 125, '|', '<', '>']

/-- the character class of the special-character test. -/
def isSpecialChar (c : Char) : Bool := specialChars.contains c

/-- `getPasswordStrength` as the signup, reset and force-change forms all
define it: one point each for length at least 8, an uppercase letter, a
lowercase letter, a digit and a special character. -/
def getPasswordStrength (password : String) : Nat :=
  let strength := 0
  let strength := if password.length ≥ 8 then strength + 1 else strength
  let strength := if password.data.any isUppercaseChar then strength + 1 else strength
  let strength := if password.data.any isLowercaseChar then strength + 1 else strength
  let strength := if password.data.any isDigitChar then strength + 1 else strength
  let strength := if password.data.any isSpecialChar then strength + 1 else strength
  strength

/-- the strength caption rendered under the meter. -/
def strengthLabel (s : Nat) : String :=
  if s ≤ 2 then "Weak" else if s ≤ 3 then "Fair" else if s ≤ 4 then "Good" else "Strong"

/-- the password rules of `signupSchema`: `.min(8)` plus the four regex
refinements, each with the same character classes as the strength meter. -/
def signupSchemaPasswordValid (password : String) : Bool :=
  password.length ≥ 8 &&
  password.data.any isUppercaseChar &&
  password.data.any isLowercaseChar &&
  password.data.any isDigitChar &&
  password.data.any isSpecialChar

/-- a rendered element of a page, in document order: headings, links
(`next/link` with its target and visible label) and plain text. -/
inductive UiNode where
  | heading (text : String)
  | link (href : String) (label : String)
  | text (s : String)
  deriving DecidableEq, Repr

/-- the `(href, label)` pairs of every link of a rendered page, in render
order. -/
def linksOf (page : List UiNode) : List (String × String) :=
  page.filterMap fun n =>
    match n with
    | .link href label => some (href, label)
    | _ => none

/-- the heading texts of a rendered page, in render order. -/
def headingsOf (page : List UiNode) : List String :=
  page.filterMap fun n =>
    match n with
    | .heading t => some t
    | _ => none

/-- the homepage (`app/page.tsx`) in render order: the hero heading, the
tagline, the two call-to-action links and the three feature cards (card
titles, descriptions and bullets are plain text, not headings or links). -/
def HomePage : List UiNode :=
  [.heading "Enterprise Scheduling Platform",
   .text "Professional scheduling and calendar management for enterprise teams. Streamline your meetings with advanced automation and integrations.",
   .link "/login" "Sign In",
   .link "/signup" "Get Started",
   .text "Smart Scheduling",
   .text "Intelligent availability management with calendar sync and conflict resolution.",
   .text "Multi-calendar integration",
   .text "Timezone intelligence",
   .text "Buffer time management",
   .text "Recurring availability rules",
   .text "Enterprise Security",
   .text "Advanced security features including SSO, MFA, and comprehensive audit trails.",
   .text "SAML & OIDC SSO",
   .text "Multi-factor authentication",
   .text "Role-based access control",
   .text "Complete audit logging",
   .text "Workflow Automation",
   .text "Powerful automation engine for notifications, follow-ups, and custom workflows.",
   .text "Custom workflow builder",
   .text "Email & SMS automation",
   .text "Webhook integrations",
   .text "Conditional logic"]

/-- a bookable slot as the backend returns it. -/
structure Slot where
  start_time : String
  end_time : String
  deriving DecidableEq, Repr

/-- the body of a slot-endpoint response: the list of computed slots. -/
structure SlotsResponse where
  slots : List Slot
  deriving DecidableEq, Repr

/-- Modelled from the spec: the slot-rendering components
(`BookingCalendar` and the availability calendar) are described in the
development plan but their code is not among the repository files. The
spec says slot computation "is delegated entirely to backend endpoints …
the frontend only renders results", so the displayed bookable slots are
the response list unchanged — no merging of rules, overrides, blocks or
buffers happens client-side. -/
def displayedSlots (resp : SlotsResponse) : List Slot := resp.slots

end Frontend

namespace Frontend

/-- helper: extracting the requests of a trace distributes over
concatenation. -/
theorem requestsOf_append (l₁ l₂ : List Effect) :
    requestsOf (l₁ ++ l₂) = requestsOf l₁ ++ requestsOf l₂ := by
  induction l₁ with
  | nil => rfl
  | cons e es ih =>
    cases e <;> simp [requestsOf, ih]

/-- helper: the response interceptor error path issues no HTTP request and
always re-rejects the error it received. -/
theorem responseInterceptor_no_request (hasWindow : Bool) (e : ApiError) :
    requestsOf (responseInterceptorOnRejected hasWindow e).1 = [] ∧
    (responseInterceptorOnRejected hasWindow e).2 = Except.error e := by
  refine ⟨?_, rfl⟩
  simp only [responseInterceptorOnRejected, requestsOf_append]
  split_ifs <;> simp [requestsOf]

/-- C6: the frontend computes no availability slots itself — the displayed
bookable slots are exactly the backend response list, and the two slot
endpoints of the API client send exactly the backend slot routes, with no
client-side merging of rules, overrides, blocks or buffers. -/
theorem slots_rendered_from_backend :
    (∀ resp : SlotsResponse, displayedSlots resp = resp.slots) ∧
    (∀ organizerSlug eventTypeSlug : String, ∀ params : Payload,
      ApiClient.events.getAvailableSlots organizerSlug eventTypeSlug params =
        [⟨.get, "/events/slots/" ++ organizerSlug ++ "/" ++ eventTypeSlug ++ "/"⟩]) ∧
    (∀ organizerSlug : String, ∀ params : Payload,
      ApiClient.availability.getCalculatedSlots organizerSlug params =
        [⟨.get, "/availability/calculated-slots/" ++ organizerSlug ++ "/"⟩]) :=
  ⟨fun _ => rfl, fun _ _ _ => rfl, fun _ _ => rfl⟩

/-- C7: the homepage renders the heading "Enterprise Scheduling Platform"
and exactly two navigation links — `/login` labelled Sign In and `/signup`
labelled Get Started — so the sign-in link targets `/login`. -/
theorem homepage_heading_and_two_links :
    headingsOf HomePage = ["Enterprise Scheduling Platform"] ∧
    linksOf HomePage = [("/login", "Sign In"), ("/signup", "Get Started")] ∧
    (linksOf HomePage).length = 2 :=
  ⟨rfl, rfl, rfl⟩

/-- C8: whatever the outcome of the logout API call, `AuthProvider.logout`
ends by removing `auth_token` and `user_data` from storage, nulling the
in-memory user and navigating to `/login` (the cleanup is a `finally`
block). -/
theorem logout_always_clears_session :
    ∀ res : Except ApiError Unit,
      [Effect.removeStorage STORAGE_KEYS.AUTH_TOKEN,
       Effect.removeStorage STORAGE_KEYS.USER_DATA,
       Effect.setUser none,
       Effect.routerPush "/login"].IsSuffix (AuthProvider.logout res) := by
  intro res
  cases res
  · exact ⟨_, rfl⟩
  · exact ⟨_, rfl⟩

/-- C9: every password accepted by the signup schema rules (length at
least 8 with an uppercase letter, a lowercase letter, a digit and a
special character) scores the maximum 5 on `getPasswordStrength` and is
captioned Strong; and the strength score never exceeds 5. -/
theorem schema_valid_password_is_strong :
    (∀ p : String, signupSchemaPasswordValid p = true →
      getPasswordStrength p = 5 ∧ strengthLabel (getPasswordStrength p) = "Strong") ∧
    (∀ p : String, getPasswordStrength p ≤ 5) := by
  constructor
  · intro p hp
    simp only [signupSchemaPasswordValid, Bool.and_eq_true, decide_eq_true_eq] at hp
    obtain ⟨⟨⟨⟨h1, h2⟩, h3⟩, h4⟩, h5⟩ := hp
    have h5eq : getPasswordStrength p = 5 := by
      simp [getPasswordStrength, h1, h2, h3, h4, h5]
    refine ⟨h5eq, ?_⟩
    rw [h5eq]
    rfl
  · intro p
    simp only [getPasswordStrength]
    split <;> split <;> split <;> split <;> split <;> omega

/-- C9 witness: the concrete password `Passw0rd!` satisfies the schema
rules and scores 5 (Strong). -/
theorem schema_valid_password_is_strong_witness :
    getPasswordStrength "Passw0rd!" = 5 ∧
    strengthLabel (getPasswordStrength "Passw0rd!") = "Strong" :=
  schema_valid_password_is_strong.1 "Passw0rd!" (by decide)

/-- C10: starting from a duplicate-free scope list, `addScope` preserves
freedom from duplicates, `removeScope` preserves it and removes every
occurrence of the given scope, and removing a previously absent scope
right after adding it restores the original list. -/
theorem scope_list_nodup_invariant (l : List String) (s : String) (hl : l.Nodup) :
    (OIDCConfigurationForm.addScope l s).Nodup ∧
    (OIDCConfigurationForm.removeScope l s).Nodup ∧
    s ∉ OIDCConfigurationForm.removeScope l s ∧
    (s ∉ l →
      OIDCConfigurationForm.removeScope (OIDCConfigurationForm.addScope l s) s = l) := by
  refine ⟨?_, ?_, ?_, ?_⟩
  · unfold OIDCConfigurationForm.addScope
    split
    · next h =>
      have hs : s ∉ l := by
        intro hmem
        exact h.2 (by simpa using hmem)
      refine List.Nodup.append hl (List.nodup_singleton s) ?_
      intro a ha hb
      rw [List.mem_singleton] at hb
      subst hb
      exact hs ha
    · exact hl
  · exact hl.filter _
  · simp [OIDCConfigurationForm.removeScope]
  · intro hmem
    have hfil : l.filter (fun t => t ≠ s) = l := by
      apply List.filter_eq_self.mpr
      intro a ha
      have : a ≠ s := fun heq => hmem (heq ▸ ha)
      simpa using this
    unfold OIDCConfigurationForm.addScope OIDCConfigurationForm.removeScope
    split
    · rw [List.filter_append]
      simpa using hfil
    · exact hfil

/-- C1 (amended): per submission, `SignupForm.onSubmit` sends exactly the
one `/users/register/` request and `ForgotPasswordForm.onSubmit` exactly
the one `/users/request-password-reset/` request, each showing a toast and
updating state on success; `ProfileForm.onSubmit`, however, sends no
request at all — its update call is commented out and success is
simulated locally. -/
theorem forms_submit_request_counts :
    (∀ (st : FormState) (d : Payload) (res : Except ApiError AuthResponse),
      requestsOf (SignupForm.onSubmit st d res).2 = ApiClient.auth.register d) ∧
    (∀ d : Payload, (ApiClient.auth.register d).length = 1) ∧
    (∀ (st : ForgotPasswordForm.State) (email : Payload) (res : Except ApiError Unit),
      requestsOf (ForgotPasswordForm.onSubmit st email res).2 =
        ApiClient.auth.requestPasswordReset email) ∧
    (∀ d : Payload, (ApiClient.auth.requestPasswordReset d).length = 1) ∧
    (∀ (st : FormState) (u : Option User) (p : Profile) (d : ProfileForm.ProfileFormData),
      requestsOf (ProfileForm.onSubmit st u p d).2 = []) ∧
    (∀ (st : FormState) (d : Payload) (r : AuthResponse),
      Effect.toast "success" "Account created!"
          "Please check your email to verify your account."
        ∈ (SignupForm.onSubmit st d (.ok r)).2 ∧
      Effect.routerPush "/verify-email" ∈ (SignupForm.onSubmit st d (.ok r)).2) ∧
    (∀ (st : ForgotPasswordForm.State) (email : Payload),
      (ForgotPasswordForm.onSubmit st email (.ok ())).1.isSubmitted = true) := by
  refine ⟨?_, fun _ => rfl, ?_, fun _ => rfl, ?_, ?_, fun _ _ => rfl⟩
  · intro st d res
    cases res <;> rfl
  · intro st email res
    cases res <;> rfl
  · intro st u p d
    cases u <;> rfl
  · intro st d r
    constructor <;>
      simp [SignupForm.onSubmit, AuthProvider.register, reqs, ApiClient.auth.register]

/-- C1 counterexample: a successful `ProfileForm` submission at a concrete
profile issues zero backend API calls (not one) — the trace contains the
success toast yet no request. -/
theorem profileform_submit_simulates_success :
    requestsOf (ProfileForm.onSubmit ⟨none, [], false⟩
        (some ⟨"active", false, ⟨"Old Name", "old bio"⟩⟩)
        ⟨"Old Name", "old bio"⟩ ⟨"New Name", "new bio"⟩).2 = [] ∧
    Effect.toast "success" "Profile updated"
        "Your profile has been successfully updated."
      ∈ (ProfileForm.onSubmit ⟨none, [], false⟩
        (some ⟨"active", false, ⟨"Old Name", "old bio"⟩⟩)
        ⟨"Old Name", "old bio"⟩ ⟨"New Name", "new bio"⟩).2 :=
  ⟨rfl, by simp [ProfileForm.onSubmit, AuthProvider.updateUser]⟩

/-- C2: on an HTTP failure, each submit handler stores the general message
from `getErrorMessage` and the per-field record from `getFieldErrors`,
emits a destructive toast carrying that message, and the inline markup of
a field with backend errors renders the first message of
`field_errors.<name>`. -/
theorem failed_submit_error_surface :
    ∀ e : ApiError,
      (∀ (st : FormState) (d : Payload),
        (SignupForm.onSubmit st d (.error e)).1.error = some (getErrorMessage e) ∧
        (SignupForm.onSubmit st d (.error e)).1.fieldErrors = getFieldErrors e ∧
        Effect.toast "destructive" "Registration failed" (getErrorMessage e)
          ∈ (SignupForm.onSubmit st d (.error e)).2) ∧
      (∀ (st : FormState) (u : Option User),
        (ForcePasswordChangeForm.onSubmit st u (.error e)).1.error =
          some (getErrorMessage e) ∧
        (ForcePasswordChangeForm.onSubmit st u (.error e)).1.fieldErrors =
          getFieldErrors e ∧
        Effect.toast "destructive" "Password change failed" (getErrorMessage e)
          ∈ (ForcePasswordChangeForm.onSubmit st u (.error e)).2) ∧
      (∀ (st : FormState) (hasConfig : Bool),
        (OIDCConfigurationForm.onSubmit st hasConfig (.error e)).1.error =
          some (getErrorMessage e) ∧
        (OIDCConfigurationForm.onSubmit st hasConfig (.error e)).1.fieldErrors =
          getFieldErrors e ∧
        Effect.toast "destructive" "Save failed" (getErrorMessage e)
          ∈ (OIDCConfigurationForm.onSubmit st hasConfig (.error e)).2) ∧
      (∀ (st : FormState) (d : Payload) (name : String) (msgs : List String),
        ((SignupForm.onSubmit st d (.error e)).1.fieldErrors).lookup name = some msgs →
        inlineFieldError none (SignupForm.onSubmit st d (.error e)).1.fieldErrors name =
          msgs.head?) := by
  intro e
  refine ⟨?_, ?_, ?_, ?_⟩
  · intro st d
    refine ⟨rfl, rfl, ?_⟩
    simp [SignupForm.onSubmit, AuthProvider.register, reqs, ApiClient.auth.register]
  · intro st u
    refine ⟨rfl, rfl, ?_⟩
    simp [ForcePasswordChangeForm.onSubmit,
      ForcePasswordChangeForm.providerForcePasswordChange]
  · intro st hasConfig
    exact ⟨rfl, rfl, by simp [OIDCConfigurationForm.onSubmit]⟩
  · intro st d name msgs h
    simp only [SignupForm.onSubmit] at h ⊢
    simp [inlineFieldError, h]

/-- C2 witness: a concrete 400 error with a field error on `email` is
surfaced as the general banner and as the inline first message of the
`email` field. -/
theorem failed_submit_error_surface_witness :
    (SignupForm.onSubmit ⟨none, [], false⟩ "d"
        (.error ⟨some 400, some "validation_error",
          [("email", ["This email is already registered."])], "Invalid input."⟩)).1.error =
      some "Invalid input." ∧
    inlineFieldError none
      (SignupForm.onSubmit ⟨none, [], false⟩ "d"
        (.error ⟨some 400, some "validation_error",
          [("email", ["This email is already registered."])], "Invalid input."⟩)).1.fieldErrors
      "email" = some "This email is already registered." :=
  ⟨((failed_submit_error_surface ⟨some 400, some "validation_error",
      [("email", ["This email is already registered."])], "Invalid input."⟩).1
        ⟨none, [], false⟩ "d").1,
   (failed_submit_error_surface ⟨some 400, some "validation_error",
      [("email", ["This email is already registered."])], "Invalid input."⟩).2.2.2
        ⟨none, [], false⟩ "d" "email" ["This email is already registered."] rfl⟩

/-- C3: every 401 response makes the shared interceptor remove the stored
`auth_token` and hard-redirect the browser to `/login` while re-rejecting
the error, and a form submission always leaves the loading flag lowered
(the `finally` block), whatever the outcome. -/
theorem unauthorized_redirect_and_loading_reset :
    (∀ e : ApiError, e.status = some 401 →
      (responseInterceptorOnRejected true e).1 =
        [Effect.removeStorage STORAGE_KEYS.AUTH_TOKEN, Effect.setLocation "/login"] ∧
      (responseInterceptorOnRejected true e).2 = Except.error e) ∧
    (∀ (st : FormState) (d : Payload) (res : Except ApiError AuthResponse),
      (SignupForm.onSubmit st d res).1.isLoading = false) ∧
    (∀ (st : ForgotPasswordForm.State) (email : Payload) (res : Except ApiError Unit),
      (ForgotPasswordForm.onSubmit st email res).1.isLoading = false) := by
  refine ⟨?_, ?_, ?_⟩
  · intro e h
    refine ⟨?_, rfl⟩
    simp [responseInterceptorOnRejected, h]
  · intro st d res
    cases res <;> rfl
  · intro st email res
    cases res <;> rfl

/-- C3 witness: a concrete 401 error produces exactly the token removal
and the `/login` redirect, and the error is re-rejected. -/
theorem unauthorized_redirect_witness :
    (responseInterceptorOnRejected true ⟨some 401, none, [], "Unauthorized"⟩).1 =
      [Effect.removeStorage STORAGE_KEYS.AUTH_TOKEN, Effect.setLocation "/login"] ∧
    (responseInterceptorOnRejected true ⟨some 401, none, [], "Unauthorized"⟩).2 =
      Except.error ⟨some 401, none, [], "Unauthorized"⟩ :=
  unauthorized_redirect_and_loading_reset.1 ⟨some 401, none, [], "Unauthorized"⟩ rfl

/-- C5 (amended): the provider writes of `user_data` on login, register and
refresh store exactly the backend response body, and stale state is
repaired by `refreshUser` re-fetching `/users/profile/`; but `updateUser`
persists a locally merged `Partial<User>` patch, and a `ProfileForm`
submission persists a locally fabricated profile with no server round
trip at all. -/
theorem user_state_cache_provenance :
    (∀ (d : Payload) (r : AuthResponse),
      userWrites STORAGE_KEYS.USER_DATA (AuthProvider.login d (.ok r)).1 = [r.user]) ∧
    (∀ (d : Payload) (r : AuthResponse),
      userWrites STORAGE_KEYS.USER_DATA (AuthProvider.register d (.ok r)).1 = [r.user]) ∧
    (∀ (logoutRes : Except ApiError Unit) (u : User),
      userWrites STORAGE_KEYS.USER_DATA
        (AuthProvider.refreshUser logoutRes (.ok u)).1 = [u] ∧
      requestsOf (AuthProvider.refreshUser logoutRes (.ok u)).1 =
        ApiClient.users.getProfile) ∧
    (∀ (u : User) (p : UserPatch),
      userWrites STORAGE_KEYS.USER_DATA (AuthProvider.updateUser (some u) p) =
        [mergeUser u p]) ∧
    (∀ (st : FormState) (u : User) (p : Profile) (d : ProfileForm.ProfileFormData),
      userWrites STORAGE_KEYS.USER_DATA (ProfileForm.onSubmit st (some u) p d).2 =
        [mergeUser u ⟨none, none, some (ProfileForm.mergeProfile p d)⟩] ∧
      requestsOf (ProfileForm.onSubmit st (some u) p d).2 = []) :=
  ⟨fun _ _ => rfl, fun _ _ => rfl, fun _ _ => ⟨rfl, rfl⟩, fun _ _ => rfl,
   fun _ _ _ _ => ⟨rfl, rfl⟩⟩

/-- C5 counterexample: a concrete `ProfileForm` submission writes a
locally merged user object to `user_data` storage while performing no
backend request — local state here is not a cache of any server
response. -/
theorem profileform_persists_local_state :
    userWrites STORAGE_KEYS.USER_DATA
      (ProfileForm.onSubmit ⟨none, [], false⟩
        (some ⟨"active", true, ⟨"Server Name", "server bio"⟩⟩)
        ⟨"Server Name", "server bio"⟩ ⟨"Locally Edited", "local bio"⟩).2 =
      [⟨"active", true, ⟨"Locally Edited", "local bio"⟩⟩] ∧
    requestsOf (ProfileForm.onSubmit ⟨none, [], false⟩
        (some ⟨"active", true, ⟨"Server Name", "server bio"⟩⟩)
        ⟨"Server Name", "server bio"⟩ ⟨"Locally Edited", "local bio"⟩).2 = [] :=
  ⟨rfl, rfl⟩


/-- C4: every `ApiClient` method sends exactly one HTTP request per
invocation, the request interceptor only rewrites the outgoing config
(never the target request, never sending anything itself), and the
response interceptor error path sends no request and always re-rejects
the same error — no retry, queueing or reordering path exists. -/
theorem apiclient_single_request_no_retry :
    (∀ (storedToken : Option String) (c : AxiosConfig),
      (requestInterceptorOnFulfilled storedToken c).req = c.req) ∧
    (∀ (hasWindow : Bool) (e : ApiError),
      requestsOf (responseInterceptorOnRejected hasWindow e).1 = [] ∧
      (responseInterceptorOnRejected hasWindow e).2 = Except.error e) ∧
    (∀ d : Payload, (ApiClient.auth.login d).length = 1) ∧
    (∀ d : Payload, (ApiClient.auth.register d).length = 1) ∧
    ApiClient.auth.logout.length = 1 ∧
    (∀ d : Payload, (ApiClient.auth.verifyEmail d).length = 1) ∧
    (∀ d : Payload, (ApiClient.auth.requestPasswordReset d).length = 1) ∧
    (∀ d : Payload, (ApiClient.auth.confirmPasswordReset d).length = 1) ∧
    (∀ d : Payload, (ApiClient.auth.changePassword d).length = 1) ∧
    (∀ d : Payload, (ApiClient.auth.initiateSso d).length = 1) ∧
    (∀ a : String, (ApiClient.auth.ssoDiscovery a).length = 1) ∧
    ApiClient.users.getProfile.length = 1 ∧
    (∀ d : Payload, (ApiClient.users.updateProfile d).length = 1) ∧
    (∀ a : String, (ApiClient.users.getPublicProfile a).length = 1) ∧
    ApiClient.users.getMfaDevices.length = 1 ∧
    (∀ d : Payload, (ApiClient.users.setupMfa d).length = 1) ∧
    (∀ d : Payload, (ApiClient.users.verifyMfa d).length = 1) ∧
    (∀ d : Payload, (ApiClient.users.disableMfa d).length = 1) ∧
    (∀ d : Payload, (ApiClient.users.regenerateBackupCodes d).length = 1) ∧
    ApiClient.users.getSessions.length = 1 ∧
    (∀ a : String, (ApiClient.users.revokeSession a).length = 1) ∧
    ApiClient.users.revokeAllSessions.length = 1 ∧
    ApiClient.users.getInvitations.length = 1 ∧
    (∀ d : Payload, (ApiClient.users.sendInvitation d).length = 1) ∧
    (∀ d : Payload, (ApiClient.users.respondToInvitation d).length = 1) ∧
    ApiClient.users.getAuditLogs.length = 1 ∧
    ApiClient.users.getRoles.length = 1 ∧
    ApiClient.users.getPermissions.length = 1 ∧
    ApiClient.events.getEventTypes.length = 1 ∧
    (∀ d : Payload, (ApiClient.events.createEventType d).length = 1) ∧
    (∀ a : String, (ApiClient.events.getEventType a).length = 1) ∧
    (∀ (a : String) (d : Payload), (ApiClient.events.updateEventType a d).length = 1) ∧
    (∀ a : String, (ApiClient.events.deleteEventType a).length = 1) ∧
    (∀ a : String, (ApiClient.events.getPublicOrganizer a).length = 1) ∧
    (∀ (a b : String), (ApiClient.events.getPublicEventType a b).length = 1) ∧
    (∀ (a b : String) (d : Payload), (ApiClient.events.getAvailableSlots a b d).length = 1) ∧
    (∀ d : Payload, (ApiClient.events.getBookings d).length = 1) ∧
    (∀ a : String, (ApiClient.events.getBooking a).length = 1) ∧
    (∀ (a : String) (d : Payload), (ApiClient.events.updateBooking a d).length = 1) ∧
    (∀ d : Payload, (ApiClient.events.createBooking d).length = 1) ∧
    (∀ a : String, (ApiClient.events.getBookingByToken a).length = 1) ∧
    (∀ (a : String) (d : Payload), (ApiClient.events.manageBooking a d).length = 1) ∧
    (∀ (a : String) (d : Payload), (ApiClient.events.addAttendee a d).length = 1) ∧
    (∀ (a b : String), (ApiClient.events.removeAttendee a b).length = 1) ∧
    (∀ d : Payload, (ApiClient.events.getBookingAnalytics d).length = 1) ∧
    (∀ a : String, (ApiClient.events.getBookingAuditLogs a).length = 1) ∧
    ApiClient.availability.getRules.length = 1 ∧
    (∀ d : Payload, (ApiClient.availability.createRule d).length = 1) ∧
    (∀ a : String, (ApiClient.availability.getRule a).length = 1) ∧
    (∀ (a : String) (d : Payload), (ApiClient.availability.updateRule a d).length = 1) ∧
    (∀ a : String, (ApiClient.availability.deleteRule a).length = 1) ∧
    ApiClient.availability.getOverrides.length = 1 ∧
    (∀ d : Payload, (ApiClient.availability.createOverride d).length = 1) ∧
    (∀ a : String, (ApiClient.availability.getOverride a).length = 1) ∧
    (∀ (a : String) (d : Payload), (ApiClient.availability.updateOverride a d).length = 1) ∧
    (∀ a : String, (ApiClient.availability.deleteOverride a).length = 1) ∧
    ApiClient.availability.getBlockedTimes.length = 1 ∧
    (∀ d : Payload, (ApiClient.availability.createBlockedTime d).length = 1) ∧
    (∀ a : String, (ApiClient.availability.getBlockedTime a).length = 1) ∧
    (∀ (a : String) (d : Payload), (ApiClient.availability.updateBlockedTime a d).length = 1) ∧
    (∀ a : String, (ApiClient.availability.deleteBlockedTime a).length = 1) ∧
    ApiClient.availability.getRecurringBlocks.length = 1 ∧
    (∀ d : Payload, (ApiClient.availability.createRecurringBlock d).length = 1) ∧
    (∀ a : String, (ApiClient.availability.getRecurringBlock a).length = 1) ∧
    (∀ (a : String) (d : Payload), (ApiClient.availability.updateRecurringBlock a d).length = 1) ∧
    (∀ a : String, (ApiClient.availability.deleteRecurringBlock a).length = 1) ∧
    ApiClient.availability.getBufferSettings.length = 1 ∧
    (∀ d : Payload, (ApiClient.availability.updateBufferSettings d).length = 1) ∧
    (∀ (a : String) (d : Payload), (ApiClient.availability.getCalculatedSlots a d).length = 1) ∧
    ApiClient.availability.getStats.length = 1 ∧
    ApiClient.availability.clearCache.length = 1 ∧
    (∀ d : Payload, (ApiClient.availability.precomputeCache d).length = 1) ∧
    ApiClient.integrations.getCalendarIntegrations.length = 1 ∧
    (∀ a : String, (ApiClient.integrations.getCalendarIntegration a).length = 1) ∧
    (∀ (a : String) (d : Payload), (ApiClient.integrations.updateCalendarIntegration a d).length = 1) ∧
    (∀ a : String, (ApiClient.integrations.deleteCalendarIntegration a).length = 1) ∧
    (∀ a : String, (ApiClient.integrations.refreshCalendarSync a).length = 1) ∧
    (∀ a : String, (ApiClient.integrations.forceCalendarSync a).length = 1) ∧
    ApiClient.integrations.getVideoIntegrations.length = 1 ∧
    (∀ a : String, (ApiClient.integrations.getVideoIntegration a).length = 1) ∧
    (∀ (a : String) (d : Payload), (ApiClient.integrations.updateVideoIntegration a d).length = 1) ∧
    (∀ a : String, (ApiClient.integrations.deleteVideoIntegration a).length = 1) ∧
    ApiClient.integrations.getWebhooks.length = 1 ∧
    (∀ d : Payload, (ApiClient.integrations.createWebhook d).length = 1) ∧
    (∀ a : String, (ApiClient.integrations.getWebhook a).length = 1) ∧
    (∀ (a : String) (d : Payload), (ApiClient.integrations.updateWebhook a d).length = 1) ∧
    (∀ a : String, (ApiClient.integrations.deleteWebhook a).length = 1) ∧
    (∀ a : String, (ApiClient.integrations.testWebhook a).length = 1) ∧
    (∀ d : Payload, (ApiClient.integrations.initiateOauth d).length = 1) ∧
    (∀ d : Payload, (ApiClient.integrations.oauthCallback d).length = 1) ∧
    ApiClient.integrations.getIntegrationHealth.length = 1 ∧
    ApiClient.integrations.getIntegrationLogs.length = 1 ∧
    ApiClient.integrations.getCalendarConflicts.length = 1 ∧
    ApiClient.workflows.getWorkflows.length = 1 ∧
    (∀ d : Payload, (ApiClient.workflows.createWorkflow d).length = 1) ∧
    (∀ a : String, (ApiClient.workflows.getWorkflow a).length = 1) ∧
    (∀ (a : String) (d : Payload), (ApiClient.workflows.updateWorkflow a d).length = 1) ∧
    (∀ a : String, (ApiClient.workflows.deleteWorkflow a).length = 1) ∧
    (∀ a : String, (ApiClient.workflows.duplicateWorkflow a).length = 1) ∧
    (∀ a : String, (ApiClient.workflows.getWorkflowActions a).length = 1) ∧
    (∀ (a : String) (d : Payload), (ApiClient.workflows.createWorkflowAction a d).length = 1) ∧
    (∀ a : String, (ApiClient.workflows.getWorkflowAction a).length = 1) ∧
    (∀ (a : String) (d : Payload), (ApiClient.workflows.updateWorkflowAction a d).length = 1) ∧
    (∀ a : String, (ApiClient.workflows.deleteWorkflowAction a).length = 1) ∧
    (∀ (a : String) (d : Payload), (ApiClient.workflows.testWorkflow a d).length = 1) ∧
    (∀ a : String, (ApiClient.workflows.validateWorkflow a).length = 1) ∧
    (∀ a : String, (ApiClient.workflows.getExecutionSummary a).length = 1) ∧
    ApiClient.workflows.getExecutions.length = 1 ∧
    ApiClient.workflows.getTemplates.length = 1 ∧
    (∀ d : Payload, (ApiClient.workflows.createFromTemplate d).length = 1) ∧
    (∀ d : Payload, (ApiClient.workflows.bulkTest d).length = 1) ∧
    ApiClient.workflows.getPerformanceStats.length = 1 ∧
    ApiClient.notifications.getTemplates.length = 1 ∧
    (∀ d : Payload, (ApiClient.notifications.createTemplate d).length = 1) ∧
    (∀ a : String, (ApiClient.notifications.getTemplate a).length = 1) ∧
    (∀ (a : String) (d : Payload), (ApiClient.notifications.updateTemplate a d).length = 1) ∧
    (∀ a : String, (ApiClient.notifications.deleteTemplate a).length = 1) ∧
    (∀ a : String, (ApiClient.notifications.testTemplate a).length = 1) ∧
    ApiClient.notifications.getPreferences.length = 1 ∧
    (∀ d : Payload, (ApiClient.notifications.updatePreferences d).length = 1) ∧
    ApiClient.notifications.getLogs.length = 1 ∧
    (∀ a : String, (ApiClient.notifications.resendNotification a).length = 1) ∧
    ApiClient.notifications.getScheduled.length = 1 ∧
    (∀ a : String, (ApiClient.notifications.cancelScheduled a).length = 1) ∧
    (∀ d : Payload, (ApiClient.notifications.sendNotification d).length = 1) ∧
    ApiClient.notifications.getStats.length = 1 ∧
    ApiClient.notifications.getHealth.length = 1 ∧
    (∀ d : Payload, (ApiClient.contacts.getContacts d).length = 1) ∧
    (∀ d : Payload, (ApiClient.contacts.createContact d).length = 1) ∧
    (∀ a : String, (ApiClient.contacts.getContact a).length = 1) ∧
    (∀ (a : String) (d : Payload), (ApiClient.contacts.updateContact a d).length = 1) ∧
    (∀ a : String, (ApiClient.contacts.deleteContact a).length = 1) ∧
    (∀ a : String, (ApiClient.contacts.getContactInteractions a).length = 1) ∧
    (∀ (a : String) (d : Payload), (ApiClient.contacts.addContactInteraction a d).length = 1) ∧
    ApiClient.contacts.getGroups.length = 1 ∧
    (∀ d : Payload, (ApiClient.contacts.createGroup d).length = 1) ∧
    (∀ a : String, (ApiClient.contacts.getGroup a).length = 1) ∧
    (∀ (a : String) (d : Payload), (ApiClient.contacts.updateGroup a d).length = 1) ∧
    (∀ a : String, (ApiClient.contacts.deleteGroup a).length = 1) ∧
    (∀ (a b : String), (ApiClient.contacts.addContactToGroup a b).length = 1) ∧
    (∀ (a b : String), (ApiClient.contacts.removeContactFromGroup a b).length = 1) ∧
    (∀ d : Payload, (ApiClient.contacts.importContacts d).length = 1) ∧
    ApiClient.contacts.exportContacts.length = 1 ∧
    (∀ d : Payload, (ApiClient.contacts.mergeContacts d).length = 1) ∧
    ApiClient.contacts.getStats.length = 1 := by
  refine ⟨?_, ?_, ?_⟩
  · intro t c
    cases t <;> rfl
  · exact responseInterceptor_no_request
  · repeat' apply And.intro
    all_goals intros
    all_goals rfl

/-- C10 witness: at the default scope list and the fresh scope
`offline_access`, add preserves freedom from duplicates and remove
restores the original list. -/
theorem scope_list_nodup_invariant_witness :
    (OIDCConfigurationForm.addScope ["openid", "email", "profile"] "offline_access").Nodup ∧
    OIDCConfigurationForm.removeScope
      (OIDCConfigurationForm.addScope ["openid", "email", "profile"] "offline_access")
      "offline_access" = ["openid", "email", "profile"] :=
  ⟨(scope_list_nodup_invariant ["openid", "email", "profile"] "offline_access"
      (by decide)).1,
   (scope_list_nodup_invariant ["openid", "email", "profile"] "offline_access"
      (by decide)).2.2.2 (by decide)⟩

end Frontend
